import Mathlib

/-!
Shallow embedding of the event-planning generation pipeline of this
repository (the Gemini service module): the media data model, the image
pre-cleanup pass, the blueprint-generation stage and the three-view render
stage with its deterministic SVG fallback path.

The external generative-AI service is an opaque collaborator; each
sequential call to it is modelled by an explicit outcome oracle (one
outcome per call index), so the theorems quantify over every possible
service behaviour.  Progress callbacks are advisory only (the source never
branches on them) and are omitted.  The browser builtin `btoa` is modelled
as base64 over latin-1 code units, its documented behaviour.
-/

/-- Kind of an uploaded media file (from the repository type `FileType`). -/
inductive FileType where
  | image
  | video
  deriving DecidableEq, Repr

/-- An uploaded media file (repository type `UploadedFile`): base64 payload
with data-URL prefix, MIME type, kind, and name. -/
structure UploadedFile where
  base64 : String
  mimeType : String
  type : FileType
  name : String
  deriving DecidableEq, Repr

/-- A latitude/longitude pair (repository type `GeolocationCoordinates`). -/
structure GeolocationCoordinates where
  latitude : Float
  longitude : Float

/-- A session location (repository type `LocationType`): either a free-form
string or a coordinate pair, modelled as a tagged variant. -/
inductive LocationType where
  | address (value : String)
  | coords (value : GeolocationCoordinates)

/-- One generated render (repository type `GeneratedImage`). -/
structure GeneratedImage where
  imageUrl : String
  description : String
  label : String
  deriving DecidableEq, Repr

/-- The full generation result (repository type `GenerationResult`). -/
structure GenerationResult where
  images : List GeneratedImage
  deriving DecidableEq, Repr

/-- The blueprint produced by the analysis stage (repository type
`BlueprintData`). -/
structure BlueprintData where
  blueprint : String
  userFiles : List UploadedFile
  foundFiles : List UploadedFile
  mediaAnalysis : String
  deriving DecidableEq, Repr

/-- One of the three fixed view specifications of the render stage. -/
structure ViewPrompt where
  label : String
  prompt : String
  deriving DecidableEq, Repr

/-- MIME types supported by the image generation model
(`SUPPORTED_IMAGE_MIME_TYPES` in the source). -/
def SUPPORTED_IMAGE_MIME_TYPES : List String :=
  ["image/png", "image/jpeg", "image/webp", "image/heic", "image/heif"]

/-- Whether a file has a whitelisted image MIME type
(`SUPPORTED_IMAGE_MIME_TYPES.includes(file.mimeType)` in the source). -/
def isSupportedImage (file : UploadedFile) : Bool :=
  SUPPORTED_IMAGE_MIME_TYPES.contains file.mimeType

/-- Removes the data URL prefix from a base64 string (`cleanBase64` in the
source: split on a comma and take the second piece, falling back to the
whole string when that piece is missing or empty, matching JS truthiness). -/
def cleanBase64 (base64String : String) : String :=
  match (base64String.splitOn ",")[1]? with
  | some second => if second = "" then base64String else second
  | none => base64String

/-- An inline binary payload inside a service response part.  The empty
string models an absent (JS-falsy) field. -/
structure InlineData where
  data : String
  mimeType : String
  deriving DecidableEq, Repr

/-- One content part of a service response. -/
structure RPart where
  inlineData : Option InlineData
  deriving DecidableEq, Repr

/-- The content of a response candidate; `parts` may be absent. -/
structure RContent where
  parts : Option (List RPart)
  deriving DecidableEq, Repr

/-- One candidate of a service response; `content` may be absent. -/
structure RCandidate where
  content : Option RContent
  deriving DecidableEq, Repr

/-- A service response: a (possibly empty) candidate list. -/
structure RResponse where
  candidates : List RCandidate
  deriving DecidableEq, Repr

/-- Outcome of one call to the generative-AI service: either the call threw,
or it returned a response. -/
inductive SvcOutcome where
  | throw
  | resp (response : RResponse)
  deriving DecidableEq, Repr

/-- Scans response parts for the first one with a truthy inline payload
(the `for (const part of content.parts)` loops in the source, which break
at the first part with `part.inlineData && part.inlineData.data`). -/
def findInline : List RPart → Option InlineData
  | [] => none
  | part :: rest =>
    match part.inlineData with
    | some d => if d.data ≠ "" then some d else findInline rest
    | none => findInline rest

/-- The full response scan used by both the cleanup and the render stages:
first candidate, its content, its parts, then the first truthy inline
payload; absent at any step means no payload. -/
def findInlineResp (response : RResponse) : Option InlineData :=
  match response.candidates with
  | [] => none
  | candidate :: _ =>
    match candidate.content with
    | none => none
    | some content =>
      match content.parts with
      | none => none
      | some parts => findInline parts

/-- Converts uploaded files to the inline-data request format
(`filesToParts` in the source). -/
def filesToParts (files : List UploadedFile) : List InlineData :=
  files.map (fun file => { data := cleanBase64 file.base64, mimeType := file.mimeType })

/-- The base64 alphabet. -/
def base64Chars : List Char :=
  "ABCDEFGHIJKLMNOPQRSTUVWXYZabcdefghijklmnopqrstuvwxyz0123456789+/".toList

/-- The base64 digit for a 6-bit value. -/
def b64c (n : Nat) : Char :=
  base64Chars.getD n 'A'

/-- Base64-encodes a byte list, three bytes to four digits, padded with
equals signs. -/
def encodeB64 : List Nat → String
  | [] => ""
  | [a] => String.mk [b64c (a / 4), b64c (a % 4 * 16), '=', '=']
  | [a, b] => String.mk [b64c (a / 4), b64c (a % 4 * 16 + b / 16), b64c (b % 16 * 4), '=']
  | a :: b :: c :: rest =>
    String.mk [b64c (a / 4), b64c (a % 4 * 16 + b / 16), b64c (b % 16 * 4 + c / 64), b64c (c % 64)]
      ++ encodeB64 rest

/-- Model of the browser builtin `btoa`: base64 over the latin-1 code units
of the string (all strings it is applied to in the source are ASCII). -/
def btoa (s : String) : String :=
  encodeB64 (s.toList.map Char.toNat)

/-- Renders the optional location for the blueprint instruction (string kept
verbatim, coordinates rendered behind a fixed marker, null as a fixed
phrase), as in the source template. -/
def locationPromptText (location : Option LocationType) : String :=
  match location with
  | none => "Not specified"
  | some (LocationType.address value) => value
  | some (LocationType.coords value) =>
    "Coordinates: " ++ toString value.latitude ++ ", " ++ toString value.longitude

/-- Renders the optional location for the media-analysis summary (no marker
before coordinates), as in the source template. -/
def locationSummaryText (location : Option LocationType) : String :=
  match location with
  | none => "Not specified"
  | some (LocationType.address value) => value
  | some (LocationType.coords value) =>
    toString value.latitude ++ ", " ++ toString value.longitude

/-- Fixed cleanup instruction sent once per cleanable asset. -/
def cleanupPromptText : String :=
  "You are an image cleanup specialist. Analyze this image and generate a CLEAN version.

IMPORTANT CLEANUP TASKS:
1. If this is a screenshot, remove ALL UI elements including:
   - Navigation bars, buttons, menus
   - Cursor, selection boxes, tooltips
   - Watermarks, logos, overlays
   - Any text overlays or annotations
   - Browser chrome or app interface elements

2. If this is a virtual tour or 360Â° image, remove:
   - Navigation arrows or controls
   - Virtual tour UI elements
   - Info bubbles or hotspots
   - Company branding or watermarks

3. Enhance the venue visibility by:
   - Improving lighting if needed
   - Removing any obstructions
   - Keeping architectural features clear
   - Maintaining true colors and proportions

Generate a CLEAN, PROFESSIONAL image of just the venue space itself, suitable for event planning visualization.
The output should look like a professional architectural photograph without any digital artifacts."

/-- The structured analysis instruction of the blueprint stage, with the
user prompt, location and website interpolated exactly as in the source
(JS falsy defaults for empty strings). -/
def blueprintPromptText (prompt : String) (location : Option LocationType) (venueWebsite : String) : String :=
  "
You are an expert event planner analyzing a venue for an event.

Event Request: " ++
  (if prompt = "" then "General event planning" else prompt) ++
  "
Location: " ++
  (locationPromptText location) ++
  "
Venue Website: " ++
  (if venueWebsite = "" then "Not provided" else venueWebsite) ++
  "

Based on the venue images provided, create a detailed event blueprint that includes:

1. **Venue Analysis**
   - Type of venue (ballroom, conference center, outdoor space, etc.)
   - Estimated capacity
   - Key architectural features
   - Available amenities

2. **Event Layout Design**
   - Optimal space utilization for: " ++
  (prompt) ++
  "
   - Guest flow and circulation patterns
   - Key zones: entrance, main event space, service areas
   - Staging and technical setup areas

3. **Visual Transformation Plan**
   - Lighting recommendations
   - Decoration placement
   - Color scheme suggestions
   - Furniture arrangement

4. **Three Specific Views to Generate**
   - Floor Plan View: Describe the top-down layout
   - Front/Entrance View: Describe how guests will see the venue upon arrival
   - Main Event Space View: Describe the primary event area setup

Please be specific about spatial arrangements, decorative elements, and how to transform the venue for this event.
        "

/-- The per-view instruction template for the Floor Plan view, with the
blueprint text interpolated as in the source. -/
def floorPlanPromptText (blueprint : String) : String :=
  "You are an expert architectural renderer specializing in event floor plans.

CRITICAL INSTRUCTIONS:
1. Generate a CLEAN, PROFESSIONAL ARCHITECTURAL FLOOR PLAN - not a photo or 3D view
2. This must be a TOP-DOWN, 2D architectural drawing with NO photographic elements
3. DO NOT include any UI elements, screenshots marks, or artifacts from the source images
4. Create a proper technical drawing with clean lines, measurements, and architectural symbols

Based on the venue photos provided (which have been cleaned), create a floor plan that shows:

ARCHITECTURAL ELEMENTS (use standard symbols):
- Walls (thick black lines)
- Doors (arc symbols)
- Windows (parallel lines)
- Columns/pillars (circles or squares)
- Stairs (if present)

EVENT LAYOUT based on: " ++
  (blueprint) ++
  "
- Tables and seating arrangements (circles/rectangles with chair symbols)
- Stage/presentation area (rectangle with label)
- Dance floor (if applicable)
- Registration/reception desk
- Catering stations
- Bar area
- Service areas
- Emergency exits (clearly marked)

STYLE REQUIREMENTS:
- Clean white background
- Black lines for structure
- Light colors for different zones
- Clear labels for each area
- Scale indicator
- North arrow
- Legend for symbols used

Generate a PROFESSIONAL ARCHITECTURAL FLOOR PLAN suitable for event planning documentation. This should look like it was created in CAD software, NOT like a photograph or screenshot."

/-- The per-view instruction template for the Main Event Space view. -/
def mainSpacePromptText (blueprint : String) : String :=
  "You are an expert event designer. Using the provided CLEANED venue photo(s), transform the MAIN EVENT SPACE for the occasion.

IMPORTANT: The images provided have been pre-cleaned to remove UI elements and artifacts. Use these clean images to visualize the transformed space.

Transform this specific venue\x27s main space by adding:
- Complete event setup based on: " ++
  (blueprint) ++
  "
- Appropriate seating arrangement for the space
- Stage or focal point that fits the venue
- Professional lighting design
- Decorations, drapery, and centerpieces
- Color scheme and theme elements

Generate a photorealistic image showing THIS EXACT VENUE transformed and ready for the event, maintaining its original architecture while adding all event elements."

/-- The per-view instruction template for the Side View. -/
def sideViewPromptText (blueprint : String) : String :=
  "You are an expert architectural renderer. Create a SIDE ELEVATION VIEW of the event setup.

Generate a clean architectural side view (cross-section) showing:
- The venue\x27s interior height and proportions
- Stage/presentation area elevation
- Seating arrangement from the side
- Lighting and technical setup positioning
- Decorative elements placement (draping, banners, etc.)
- Clear height measurements

Based on the event requirements: " ++
  (blueprint) ++
  "

This should be a clean architectural drawing showing the vertical arrangement of the event space, suitable for understanding sight lines and spatial relationships."

/-- The minimal placeholder card drawn for a label outside the three known
views (`createPlaceholderImage` template, with colour and label
interpolated). -/
def placeholderSVGBody (label color : String) : String :=
  "
        <svg width=\"800\" height=\"600\" xmlns=\"http://www.w3.org/2000/svg\">
            <rect width=\"800\" height=\"600\" fill=\"" ++
  (color) ++
  "\"/>
            <rect x=\"50\" y=\"50\" width=\"700\" height=\"500\" fill=\"white\" stroke=\"#333\" stroke-width=\"2\" rx=\"10\"/>
            <text x=\"400\" y=\"280\" text-anchor=\"middle\" font-size=\"32\" font-weight=\"bold\" fill=\"#333\">" ++
  (label) ++
  "</text>
            <text x=\"400\" y=\"320\" text-anchor=\"middle\" font-size=\"18\" fill=\"#666\">AI-Generated Venue Transformation</text>
            <text x=\"400\" y=\"350\" text-anchor=\"middle\" font-size=\"14\" fill=\"#999\">Powered by Nano Banana (Gemini 2.5 Flash Image)</text>
            <rect x=\"300\" y=\"380\" width=\"200\" height=\"60\" fill=\"" ++
  (color) ++
  "\" stroke=\"#333\" stroke-width=\"1\" rx=\"5\"/>
            <text x=\"400\" y=\"415\" text-anchor=\"middle\" font-size=\"14\" fill=\"#333\">Processing...</text>
        </svg>
    "

/-- Creates the generic placeholder image (`createPlaceholderImage`):
colour picked by index from a fixed palette, SVG encoded as a data URL. -/
def createPlaceholderImage (label : String) (index : Nat) : String :=
  let colors := ["#e3f2fd", "#f3e5f5", "#e8f5e9"]
  let color := colors.getD (index % colors.length) "#e3f2fd"
  "data:image/svg+xml;base64," ++ btoa (placeholderSVGBody label color)
/-- The fixed floor-plan fallback SVG markup (`generateFloorPlanSVG` template). -/
def floorPlanSVGBody  : String :=
  "
        <svg width=\"800\" height=\"600\" xmlns=\"http://www.w3.org/2000/svg\">
            <!-- Background -->
            <rect width=\"800\" height=\"600\" fill=\"#f5f5f5\"/>
            
            <!-- Title -->
            <text x=\"400\" y=\"30\" text-anchor=\"middle\" font-size=\"24\" font-weight=\"bold\" fill=\"#333\">Floor Plan</text>
            <text x=\"400\" y=\"55\" text-anchor=\"middle\" font-size=\"14\" fill=\"#666\">Event Layout - Top View</text>
            
            <!-- Grid Pattern -->
            <defs>
                <pattern id=\"grid\" width=\"20\" height=\"20\" patternUnits=\"userSpaceOnUse\">
                    <path d=\"M 20 0 L 0 0 0 20\" fill=\"none\" stroke=\"#e0e0e0\" stroke-width=\"0.5\"/>
                </pattern>
            </defs>
            <rect x=\"100\" y=\"80\" width=\"600\" height=\"450\" fill=\"url(#grid)\"/>
            
            <!-- Venue Outline -->
            <rect x=\"100\" y=\"80\" width=\"600\" height=\"450\" fill=\"white\" stroke=\"#333\" stroke-width=\"3\"/>
            
            <!-- Main Event Space -->
            <rect x=\"200\" y=\"150\" width=\"400\" height=\"280\" fill=\"#e8f5e9\" stroke=\"#333\" stroke-width=\"2\"/>
            <text x=\"400\" y=\"290\" text-anchor=\"middle\" font-size=\"20\" font-weight=\"bold\">Main Event Space</text>
            
            <!-- Stage Area -->
            <rect x=\"250\" y=\"160\" width=\"300\" height=\"80\" fill=\"#ffecb3\" stroke=\"#333\" stroke-width=\"2\"/>
            <text x=\"400\" y=\"205\" text-anchor=\"middle\" font-size=\"16\">Stage / Presentation</text>
            
            <!-- Reception -->
            <rect x=\"100\" y=\"80\" width=\"100\" height=\"120\" fill=\"#e3f2fd\" stroke=\"#333\" stroke-width=\"2\"/>
            <text x=\"150\" y=\"140\" text-anchor=\"middle\" font-size=\"14\" font-weight=\"bold\">Reception</text>
            
            <!-- Catering -->
            <rect x=\"600\" y=\"80\" width=\"100\" height=\"180\" fill=\"#fff3e0\" stroke=\"#333\" stroke-width=\"2\"/>
            <text x=\"650\" y=\"170\" text-anchor=\"middle\" font-size=\"14\" font-weight=\"bold\">Catering</text>
            
            <!-- Service Areas -->
            <rect x=\"600\" y=\"300\" width=\"100\" height=\"100\" fill=\"#f3e5f5\" stroke=\"#333\" stroke-width=\"2\"/>
            <text x=\"650\" y=\"350\" text-anchor=\"middle\" font-size=\"14\">Service</text>
            
            <!-- Entrance -->
            <rect x=\"140\" y=\"75\" width=\"20\" height=\"10\" fill=\"#2196f3\"/>
            <text x=\"150\" y=\"70\" text-anchor=\"middle\" font-size=\"12\" fill=\"#2196f3\">Entrance</text>
            
            <!-- Exit -->
            <rect x=\"380\" y=\"525\" width=\"40\" height=\"10\" fill=\"#4caf50\"/>
            <text x=\"400\" y=\"550\" text-anchor=\"middle\" font-size=\"12\" fill=\"#4caf50\">Emergency Exit</text>
            
            <!-- Legend -->
            <g transform=\"translate(50, 560)\">
                <text x=\"0\" y=\"0\" font-size=\"12\" font-weight=\"bold\">Legend:</text>
                <rect x=\"60\" y=\"-12\" width=\"20\" height=\"15\" fill=\"#e8f5e9\"/>
                <text x=\"85\" y=\"0\" font-size=\"11\">Event Space</text>
                <rect x=\"160\" y=\"-12\" width=\"20\" height=\"15\" fill=\"#ffecb3\"/>
                <text x=\"185\" y=\"0\" font-size=\"11\">Stage</text>
                <rect x=\"240\" y=\"-12\" width=\"20\" height=\"15\" fill=\"#e3f2fd\"/>
                <text x=\"265\" y=\"0\" font-size=\"11\">Reception</text>
                <rect x=\"340\" y=\"-12\" width=\"20\" height=\"15\" fill=\"#fff3e0\"/>
                <text x=\"365\" y=\"0\" font-size=\"11\">Catering</text>
            </g>
        </svg>
    "

/-- The fixed side-elevation fallback SVG markup (`generateSideViewSVG` template). -/
def sideViewSVGBody  : String :=
  "
        <svg width=\"800\" height=\"600\" xmlns=\"http://www.w3.org/2000/svg\">
            <!-- Background -->
            <rect width=\"800\" height=\"600\" fill=\"#f5f5f5\"/>
            
            <!-- Title -->
            <text x=\"400\" y=\"30\" text-anchor=\"middle\" font-size=\"24\" font-weight=\"bold\" fill=\"#333\">Side Elevation View</text>
            <text x=\"400\" y=\"55\" text-anchor=\"middle\" font-size=\"14\" fill=\"#666\">Event Space Cross-Section</text>
            
            <!-- Grid for scale -->
            <defs>
                <pattern id=\"sideGrid\" width=\"20\" height=\"20\" patternUnits=\"userSpaceOnUse\">
                    <path d=\"M 20 0 L 0 0 0 20\" fill=\"none\" stroke=\"#e0e0e0\" stroke-width=\"0.3\"/>
                </pattern>
            </defs>
            <rect x=\"100\" y=\"80\" width=\"600\" height=\"400\" fill=\"url(#sideGrid)\"/>
            
            <!-- Floor and Ceiling Lines -->
            <line x1=\"100\" y1=\"400\" x2=\"700\" y2=\"400\" stroke=\"#333\" stroke-width=\"2\"/>
            <line x1=\"100\" y1=\"150\" x2=\"700\" y2=\"150\" stroke=\"#333\" stroke-width=\"2\"/>
            
            <!-- Wall outlines -->
            <line x1=\"100\" y1=\"150\" x2=\"100\" y2=\"400\" stroke=\"#333\" stroke-width=\"2\"/>
            <line x1=\"700\" y1=\"150\" x2=\"700\" y2=\"400\" stroke=\"#333\" stroke-width=\"2\"/>
            
            <!-- Stage Platform -->
            <rect x=\"150\" y=\"360\" width=\"180\" height=\"40\" fill=\"#ffecb3\" stroke=\"#333\" stroke-width=\"1\"/>
            <text x=\"240\" y=\"385\" text-anchor=\"middle\" font-size=\"12\" fill=\"#333\">Stage</text>
            
            <!-- Stage Backdrop/Screen -->
            <rect x=\"160\" y=\"200\" width=\"160\" height=\"160\" fill=\"#e3f2fd\" stroke=\"#333\" stroke-width=\"1\"/>
            <text x=\"240\" y=\"280\" text-anchor=\"middle\" font-size=\"11\" fill=\"#666\">Projection Screen</text>
            
            <!-- Seating Rows (side view) -->
            <g id=\"seatRow\">
                <rect width=\"30\" height=\"25\" fill=\"#95a5a6\" stroke=\"#333\" stroke-width=\"0.5\"/>
            </g>
            
            <!-- Row 1 -->
            <use href=\"#seatRow\" x=\"380\" y=\"375\"/>
            <use href=\"#seatRow\" x=\"420\" y=\"375\"/>
            <use href=\"#seatRow\" x=\"460\" y=\"375\"/>
            <use href=\"#seatRow\" x=\"500\" y=\"375\"/>
            <use href=\"#seatRow\" x=\"540\" y=\"375\"/>
            <use href=\"#seatRow\" x=\"580\" y=\"375\"/>
            <use href=\"#seatRow\" x=\"620\" y=\"375\"/>
            
            <!-- Row 2 (elevated) -->
            <rect x=\"380\" y=\"365\" width=\"280\" height=\"10\" fill=\"#d4d4d4\" stroke=\"#333\" stroke-width=\"0.5\"/>
            <use href=\"#seatRow\" x=\"380\" y=\"340\"/>
            <use href=\"#seatRow\" x=\"420\" y=\"340\"/>
            <use href=\"#seatRow\" x=\"460\" y=\"340\"/>
            <use href=\"#seatRow\" x=\"500\" y=\"340\"/>
            <use href=\"#seatRow\" x=\"540\" y=\"340\"/>
            <use href=\"#seatRow\" x=\"580\" y=\"340\"/>
            <use href=\"#seatRow\" x=\"620\" y=\"340\"/>
            
            <!-- Lighting Rigs -->
            <line x1=\"200\" y1=\"150\" x2=\"200\" y2=\"180\" stroke=\"#333\" stroke-width=\"1\"/>
            <circle cx=\"200\" cy=\"185\" r=\"8\" fill=\"#ffd700\" stroke=\"#333\" stroke-width=\"1\"/>
            <line x1=\"350\" y1=\"150\" x2=\"350\" y2=\"180\" stroke=\"#333\" stroke-width=\"1\"/>
            <circle cx=\"350\" cy=\"185\" r=\"8\" fill=\"#ffd700\" stroke=\"#333\" stroke-width=\"1\"/>
            <line x1=\"500\" y1=\"150\" x2=\"500\" y2=\"180\" stroke=\"#333\" stroke-width=\"1\"/>
            <circle cx=\"500\" cy=\"185\" r=\"8\" fill=\"#ffd700\" stroke=\"#333\" stroke-width=\"1\"/>
            <line x1=\"650\" y1=\"150\" x2=\"650\" y2=\"180\" stroke=\"#333\" stroke-width=\"1\"/>
            <circle cx=\"650\" cy=\"185\" r=\"8\" fill=\"#ffd700\" stroke=\"#333\" stroke-width=\"1\"/>
            
            <!-- Height Measurements -->
            <line x1=\"80\" y1=\"150\" x2=\"80\" y2=\"400\" stroke=\"#666\" stroke-width=\"0.5\"/>
            <line x1=\"75\" y1=\"150\" x2=\"85\" y2=\"150\" stroke=\"#666\" stroke-width=\"0.5\"/>
            <line x1=\"75\" y1=\"400\" x2=\"85\" y2=\"400\" stroke=\"#666\" stroke-width=\"0.5\"/>
            <text x=\"60\" y=\"275\" text-anchor=\"middle\" font-size=\"10\" fill=\"#666\" transform=\"rotate(-90, 60, 275)\">4.5m</text>
            
            <!-- Room Dimensions -->
            <line x1=\"100\" y1=\"420\" x2=\"700\" y2=\"420\" stroke=\"#666\" stroke-width=\"0.5\"/>
            <line x1=\"100\" y1=\"415\" x2=\"100\" y2=\"425\" stroke=\"#666\" stroke-width=\"0.5\"/>
            <line x1=\"700\" y1=\"415\" x2=\"700\" y2=\"425\" stroke=\"#666\" stroke-width=\"0.5\"/>
            <text x=\"400\" y=\"440\" text-anchor=\"middle\" font-size=\"10\" fill=\"#666\">18m</text>
            
            <!-- Legend -->
            <text x=\"100\" y=\"520\" font-size=\"11\" font-weight=\"bold\" fill=\"#333\">Legend:</text>
            <rect x=\"100\" y=\"530\" width=\"20\" height=\"15\" fill=\"#ffecb3\" stroke=\"#333\" stroke-width=\"0.5\"/>
            <text x=\"125\" y=\"541\" font-size=\"10\" fill=\"#333\">Stage</text>
            <rect x=\"200\" y=\"530\" width=\"20\" height=\"15\" fill=\"#95a5a6\" stroke=\"#333\" stroke-width=\"0.5\"/>
            <text x=\"225\" y=\"541\" font-size=\"10\" fill=\"#333\">Seating</text>
            <circle cx=\"290\" cy=\"538\" r=\"6\" fill=\"#ffd700\" stroke=\"#333\" stroke-width=\"0.5\"/>
            <text x=\"300\" y=\"541\" font-size=\"10\" fill=\"#333\">Lighting</text>
            
            <!-- Scale -->
            <text x=\"400\" y=\"580\" text-anchor=\"middle\" font-size=\"11\" fill=\"#999\">Scale 1:100</text>
        </svg>
    "

/-- The fixed main-event-space fallback SVG markup (`generateMainSpaceSVG` template). -/
def mainSpaceSVGBody  : String :=
  "
        <svg width=\"800\" height=\"600\" xmlns=\"http://www.w3.org/2000/svg\">
            <!-- Background -->
            <rect width=\"800\" height=\"600\" fill=\"#2c3e50\"/>
            
            <!-- Title -->
            <text x=\"400\" y=\"30\" text-anchor=\"middle\" font-size=\"24\" font-weight=\"bold\" fill=\"white\">Main Event Space</text>
            <text x=\"400\" y=\"55\" text-anchor=\"middle\" font-size=\"14\" fill=\"#ecf0f1\">Transformed Venue Interior</text>
            
            <!-- Stage Area -->
            <rect x=\"200\" y=\"100\" width=\"400\" height=\"150\" fill=\"#34495e\" stroke=\"#ecf0f1\" stroke-width=\"2\"/>
            <rect x=\"250\" y=\"120\" width=\"300\" height=\"100\" fill=\"#1abc9c\"/>
            <text x=\"400\" y=\"175\" text-anchor=\"middle\" font-size=\"20\" font-weight=\"bold\" fill=\"white\">STAGE</text>
            
            <!-- Stage Lighting -->
            <circle cx=\"250\" cy=\"100\" r=\"15\" fill=\"#f39c12\" opacity=\"0.8\"/>
            <circle cx=\"350\" cy=\"100\" r=\"15\" fill=\"#f39c12\" opacity=\"0.8\"/>
            <circle cx=\"450\" cy=\"100\" r=\"15\" fill=\"#f39c12\" opacity=\"0.8\"/>
            <circle cx=\"550\" cy=\"100\" r=\"15\" fill=\"#f39c12\" opacity=\"0.8\"/>
            
            <!-- Seating Areas -->
            <g id=\"table\">
                <circle r=\"25\" fill=\"#95a5a6\" stroke=\"#34495e\" stroke-width=\"2\"/>
                <circle r=\"18\" fill=\"#ecf0f1\"/>
            </g>
            
            <!-- Row 1 -->
            <use href=\"#table\" x=\"150\" y=\"320\"/>
            <use href=\"#table\" x=\"250\" y=\"320\"/>
            <use href=\"#table\" x=\"350\" y=\"320\"/>
            <use href=\"#table\" x=\"450\" y=\"320\"/>
            <use href=\"#table\" x=\"550\" y=\"320\"/>
            <use href=\"#table\" x=\"650\" y=\"320\"/>
            
            <!-- Row 2 -->
            <use href=\"#table\" x=\"150\" y=\"420\"/>
            <use href=\"#table\" x=\"250\" y=\"420\"/>
            <use href=\"#table\" x=\"350\" y=\"420\"/>
            <use href=\"#table\" x=\"450\" y=\"420\"/>
            <use href=\"#table\" x=\"550\" y=\"420\"/>
            <use href=\"#table\" x=\"650\" y=\"420\"/>
            
            <!-- Row 3 -->
            <use href=\"#table\" x=\"200\" y=\"520\"/>
            <use href=\"#table\" x=\"300\" y=\"520\"/>
            <use href=\"#table\" x=\"400\" y=\"520\"/>
            <use href=\"#table\" x=\"500\" y=\"520\"/>
            <use href=\"#table\" x=\"600\" y=\"520\"/>
            
            <!-- Decorative Draping -->
            <path d=\"M 50 80 Q 200 120, 350 80 T 650 80\" fill=\"none\" stroke=\"#9b59b6\" stroke-width=\"3\" opacity=\"0.6\"/>
            <path d=\"M 100 80 Q 250 120, 400 80 T 700 80\" fill=\"none\" stroke=\"#9b59b6\" stroke-width=\"3\" opacity=\"0.6\"/>
            
            <!-- Ambient Lighting Effect -->
            <ellipse cx=\"400\" cy=\"350\" rx=\"350\" ry=\"200\" fill=\"url(#lightGradient)\" opacity=\"0.3\"/>
            
            <defs>
                <radialGradient id=\"lightGradient\">
                    <stop offset=\"0%\" style=\"stop-color:#f39c12;stop-opacity:1\" />
                    <stop offset=\"100%\" style=\"stop-color:#f39c12;stop-opacity:0\" />
                </radialGradient>
            </defs>
            
            <text x=\"400\" y=\"580\" text-anchor=\"middle\" font-size=\"12\" fill=\"#95a5a6\">Event Setup with Lighting & Decoration</text>
        </svg>
    "

/-- Generates the floor-plan fallback SVG as a data URL
(`generateFloorPlanSVG`); the blueprint argument is accepted but unused,
exactly as in the source. -/
def generateFloorPlanSVG (blueprintData : BlueprintData) : String :=
  "data:image/svg+xml;base64," ++ btoa floorPlanSVGBody

/-- Generates the side-elevation fallback SVG as a data URL
(`generateSideViewSVG`); the blueprint argument is accepted but unused. -/
def generateSideViewSVG (blueprintData : BlueprintData) : String :=
  "data:image/svg+xml;base64," ++ btoa sideViewSVGBody

/-- Generates the main-event-space fallback SVG as a data URL
(`generateMainSpaceSVG`); the blueprint argument is accepted but unused. -/
def generateMainSpaceSVG (blueprintData : BlueprintData) : String :=
  "data:image/svg+xml;base64," ++ btoa mainSpaceSVGBody

/-- Dispatches on the view label to one of the three fixed fallback
generators, or to the generic placeholder for an unknown label
(`generateFallbackSVG`). -/
def generateFallbackSVG (label : String) (blueprintData : BlueprintData) (index : Nat) : String :=
  if label = "Floor Plan" then generateFloorPlanSVG blueprintData
  else if label = "Main Event Space" then generateMainSpaceSVG blueprintData
  else if label = "Side View" then generateSideViewSVG blueprintData
  else createPlaceholderImage label index

/-- Environment of one cleanup run: whether the model-client construction
throws (the only statement before the per-asset loop inside the outer
`try`), and the outcome of the one service call made for the i-th
cleanable asset. -/
structure CleanupEnv where
  modelThrow : Bool
  outcomes : Nat → SvcOutcome

/-- Processing of one cleanable asset (loop body of `cleanUpImages`):
a thrown call keeps the original; a successful response is scanned for an
inline payload, which, when present, replaces the payload (with the
returned MIME type, or the original when absent) and marks the name;
otherwise the original asset is kept. -/
def cleanOne (file : UploadedFile) (outcome : SvcOutcome) : UploadedFile :=
  match outcome with
  | SvcOutcome.throw => file
  | SvcOutcome.resp response =>
    match response.candidates with
    | [] => file
    | candidate :: _ =>
      match candidate.content with
      | none => file
      | some content =>
        match content.parts with
        | none => file
        | some parts =>
          match findInline parts with
          | none => file
          | some d =>
            let mimeType := if d.mimeType = "" then file.mimeType else d.mimeType
            { file with
              base64 := "data:" ++ mimeType ++ ";base64," ++ d.data,
              name := "cleaned_" ++ file.name }

/-- The sequential per-asset cleanup loop, indexed from `i`. -/
def cleanLoop (env : CleanupEnv) (i : Nat) : List UploadedFile → List UploadedFile
  | [] => []
  | file :: rest => cleanOne file (env.outcomes i) :: cleanLoop env (i + 1) rest

/-- The cleanup operation (`cleanUpImages`).  Partitions the input into
cleanable and pass-through assets; with no cleanable asset the input is
returned unchanged; a model-construction throw is caught by the outer
`catch`, returning the input unchanged; otherwise the cleaned assets are
followed by the pass-through assets.  The second component counts the
service calls made (one per cleanable asset processed). -/
def cleanUpImages (env : CleanupEnv) (files : List UploadedFile) : List UploadedFile × Nat :=
  let imageFiles := files.filter isSupportedImage
  let otherFiles := files.filter (fun file => !(isSupportedImage file))
  if imageFiles.length = 0 then (files, 0)
  else if env.modelThrow then (files, 0)
  else (cleanLoop env 0 imageFiles ++ otherFiles, imageFiles.length)

/-- The media-analysis summary string composed by the blueprint stage
(data only, trimmed as in the source). -/
def mediaAnalysisText (cleanedFiles : List UploadedFile) (location : Option LocationType)
    (venueWebsite prompt : String) : String :=
  ("
Venue Analysis Complete:
- " ++ toString cleanedFiles.length ++ " venue images analyzed
- Location: " ++ locationSummaryText location ++ "
- Website: " ++ (if venueWebsite = "" then "Not provided" else venueWebsite) ++ "
- Event Type: " ++ prompt ++ "
- AI Analysis: Completed successfully using Gemini
        ").trim

/-- Environment of one blueprint run: the cleanup environment, whether the
analysis-model construction throws, and the outcome of the single
text/vision call (`none` models a thrown call, `some t` the returned
text). -/
structure BlueprintEnv where
  cleanup : CleanupEnv
  analysisModelThrow : Bool
  blueprintOutcome : Option String

/-- The blueprint-building operation (`getEventBlueprint`).  Runs the
cleanup pass, builds the analysis instruction, performs the one
text/vision call, and packages the result; any exception inside the `try`
is re-surfaced as the single fixed user-facing error message.  The second
component counts the network calls made (cleanup calls plus the
text/vision call when reached). -/
def getEventBlueprint (env : BlueprintEnv) (uploadedFiles : List UploadedFile) (prompt : String)
    (location : Option LocationType) (venueWebsite : String) :
    Except String BlueprintData × Nat :=
  let cleaned := cleanUpImages env.cleanup uploadedFiles
  let cleanedFiles := cleaned.1
  let cleanCalls := cleaned.2
  let _instruction := blueprintPromptText prompt location venueWebsite
  if env.analysisModelThrow then
    (Except.error "Failed to analyze venue. Please check your images and try again.", cleanCalls)
  else
    match env.blueprintOutcome with
    | none =>
      (Except.error "Failed to analyze venue. Please check your images and try again.",
       cleanCalls + 1)
    | some blueprint =>
      (Except.ok
        { blueprint := blueprint
          userFiles := uploadedFiles
          foundFiles := cleanedFiles
          mediaAnalysis := mediaAnalysisText cleanedFiles location venueWebsite prompt },
       cleanCalls + 1)

/-- Whether an `Except` result is a success. -/
def exceptIsOk (result : Except String BlueprintData) : Bool :=
  match result with
  | Except.ok _ => true
  | Except.error _ => false

/-- The Floor Plan view specification (first entry of `viewPrompts`). -/
def floorPlanView (bp : BlueprintData) : ViewPrompt :=
  { label := "Floor Plan", prompt := floorPlanPromptText bp.blueprint }

/-- The Main Event Space view specification (second entry of
`viewPrompts`). -/
def mainSpaceView (bp : BlueprintData) : ViewPrompt :=
  { label := "Main Event Space", prompt := mainSpacePromptText bp.blueprint }

/-- The Side View specification (third entry of `viewPrompts`). -/
def sideViewView (bp : BlueprintData) : ViewPrompt :=
  { label := "Side View", prompt := sideViewPromptText bp.blueprint }

/-- The three fixed view specifications, in declaration order. -/
def viewPrompts (bp : BlueprintData) : List ViewPrompt :=
  [floorPlanView bp, mainSpaceView bp, sideViewView bp]

/-- The full per-view request instruction: the view prompt followed by the
fixed trailer noting how many images are attached and whether they were
pre-cleaned. -/
def renderFullPrompt (view : ViewPrompt) (venueImageCount : Nat) (cleanedNonempty : Bool) : String :=
  view.prompt ++ "

Number of venue images provided: " ++ toString venueImageCount ++ "
Image quality: " ++
  (if cleanedNonempty then "Pre-processed and cleaned (UI elements removed)" else "Original uploads") ++
  "
Please analyze all provided images to understand the complete venue space and generate an appropriate " ++
  view.label.toLower ++ "."

/-- Environment of one render run: whether the image-model construction (or
anything else ahead of the loop) throws, and the outcome of the one
service call made for the i-th view. -/
structure RenderEnv where
  modelThrow : Bool
  outcomes : Nat → SvcOutcome

/-- The single image produced by iteration `i` of the render loop, as a
function of that iteration's service outcome: the first inline payload of
a successful response becomes the rendered view; a response without one
yields the in-loop fallback; a thrown call (or a response with no
candidates, which throws into the same `catch`) yields the catch fallback. -/
def renderViewResult (bp : BlueprintData) (view : ViewPrompt) (i : Nat) (outcome : SvcOutcome) :
    GeneratedImage :=
  match outcome with
  | SvcOutcome.throw =>
    { imageUrl := generateFallbackSVG view.label bp i
      description := view.label ++ " visualization"
      label := view.label }
  | SvcOutcome.resp response =>
    match response.candidates with
    | [] =>
      { imageUrl := generateFallbackSVG view.label bp i
        description := view.label ++ " visualization"
        label := view.label }
    | _ :: _ =>
      match findInlineResp response with
      | some d =>
        { imageUrl :=
            "data:" ++ (if d.mimeType = "" then "image/png" else d.mimeType) ++ ";base64," ++ d.data
          description := "AI-generated " ++ view.label.toLower ++ " based on your venue photos"
          label := view.label }
      | none =>
        { imageUrl := generateFallbackSVG view.label bp i
          description := view.label ++ " visualization (fallback)"
          label := view.label }

/-- The `try` body of one render-loop iteration (`generateLayoutFromBlueprint`
loop): scans the response for an inline payload, pushes the rendered view
when one is found, then pushes the in-loop fallback when nothing was pushed
this iteration (the `generatedImages.length === i` check); an empty
candidate list throws. -/
def renderTryBody (bp : BlueprintData) (view : ViewPrompt) (i : Nat) (response : RResponse)
    (acc : List GeneratedImage) : Except String (List GeneratedImage) :=
  match response.candidates with
  | [] => Except.error "No response candidates from Nano Banana"
  | candidate :: _ =>
    let acc1 :=
      match candidate.content with
      | none => acc
      | some content =>
        match content.parts with
        | none => acc
        | some parts =>
          match findInline parts with
          | none => acc
          | some d =>
            acc ++
              [{ imageUrl :=
                   "data:" ++ (if d.mimeType = "" then "image/png" else d.mimeType) ++ ";base64," ++
                     d.data
                 description := "AI-generated " ++ view.label.toLower ++ " based on your venue photos"
                 label := view.label }]
    if acc1.length = i then
      Except.ok
        (acc1 ++
          [{ imageUrl := generateFallbackSVG view.label bp i
             description := view.label ++ " visualization (fallback)"
             label := view.label }])
    else Except.ok acc1

/-- One full render-loop iteration including its `catch`: a thrown call, or
a throw inside the `try` body, pushes the per-view fallback instead. -/
def renderViewIter (bp : BlueprintData) (view : ViewPrompt) (i : Nat) (outcome : SvcOutcome)
    (acc : List GeneratedImage) : List GeneratedImage :=
  match outcome with
  | SvcOutcome.throw =>
    acc ++
      [{ imageUrl := generateFallbackSVG view.label bp i
         description := view.label ++ " visualization"
         label := view.label }]
  | SvcOutcome.resp response =>
    match renderTryBody bp view i response acc with
    | Except.ok acc2 => acc2
    | Except.error _ =>
      acc ++
        [{ imageUrl := generateFallbackSVG view.label bp i
           description := view.label ++ " visualization"
           label := view.label }]

/-- The sequential render loop over the three view specifications. -/
def renderLoop (bp : BlueprintData) (outcomes : Nat → SvcOutcome) : List GeneratedImage :=
  ((viewPrompts bp).enum).foldl
    (fun acc p => renderViewIter bp p.2 p.1 (outcomes p.1) acc) []

/-- The image-source selection of the render stage: cleaned assets filtered
to supported image MIME types, or, when that set is empty, the original
assets filtered the same way. -/
def selectedVenueImages (bp : BlueprintData) : List UploadedFile :=
  let cleanedImages := bp.foundFiles.filter isSupportedImage
  let originalImages := bp.userFiles.filter isSupportedImage
  if cleanedImages.length > 0 then cleanedImages else originalImages

/-- The complete all-fallback result built by the outer `catch` of
`generateLayoutFromBlueprint` (three labelled SVG fallbacks). -/
def completeFallbackResult (bp : BlueprintData) : GenerationResult :=
  { images :=
      [{ imageUrl := generateFloorPlanSVG bp
         description := "Floor plan layout (fallback visualization)"
         label := "Floor Plan" },
       { imageUrl := generateMainSpaceSVG bp
         description := "Main space layout (fallback visualization)"
         label := "Main Event Space" },
       { imageUrl := generateSideViewSVG bp
         description := "Side elevation view (fallback visualization)"
         label := "Side View" }] }

/-- The `try` body of `generateLayoutFromBlueprint`: model construction,
image-source selection, the hard no-images throw, then the per-view loop. -/
def generateLayoutInner (env : RenderEnv) (bp : BlueprintData) : Except String GenerationResult :=
  if env.modelThrow then Except.error "model construction threw"
  else if (selectedVenueImages bp).length = 0 then
    Except.error "No venue images found to transform"
  else Except.ok { images := renderLoop bp env.outcomes }

/-- The render operation (`generateLayoutFromBlueprint`): the `try` body,
with any escaping exception caught by the outer `catch` and converted into
the complete all-fallback result.  The operation itself never throws. -/
def generateLayoutFromBlueprint (env : RenderEnv) (bp : BlueprintData) : GenerationResult :=
  match generateLayoutInner env bp with
  | Except.ok result => result
  | Except.error _ => completeFallbackResult bp

/-- A concrete supported image file, used as a witness input. -/
def imgFile0 : UploadedFile :=
  { base64 := "data:image/png;base64,AAAA", mimeType := "image/png",
    type := FileType.image, name := "venue.png" }

/-- A concrete video (pass-through) file, used as a witness input. -/
def vidFile0 : UploadedFile :=
  { base64 := "data:video/mp4;base64,BBBB", mimeType := "video/mp4",
    type := FileType.video, name := "tour.mp4" }

/-- A cleanup environment whose every per-asset call throws. -/
def cEnvThrow : CleanupEnv :=
  { modelThrow := false, outcomes := fun _ => SvcOutcome.throw }

/-- A blueprint environment whose text/vision call succeeds. -/
def envB0 : BlueprintEnv :=
  { cleanup := cEnvThrow, analysisModelThrow := false,
    blueprintOutcome := some "The venue is a flat lawn with a patio." }

/-- A blueprint environment whose analysis-model construction throws. -/
def envBthrow : BlueprintEnv :=
  { cleanup := cEnvThrow, analysisModelThrow := true, blueprintOutcome := none }

/-- A blueprint value with one supported original image. -/
def bpWithImg : BlueprintData :=
  { blueprint := "Ballroom, 80x50ft, stage on the north wall",
    userFiles := [imgFile0], foundFiles := [], mediaAnalysis := "summary" }

/-- A blueprint value with no supported image in either asset set. -/
def bpNoImg : BlueprintData :=
  { blueprint := "Outdoor lawn", userFiles := [vidFile0], foundFiles := [vidFile0],
    mediaAnalysis := "summary" }

/-- A render environment whose every per-view call throws. -/
def rEnvAllThrow : RenderEnv :=
  { modelThrow := false, outcomes := fun _ => SvcOutcome.throw }

/-- A render environment whose model construction throws. -/
def rEnvModelThrow : RenderEnv :=
  { modelThrow := true, outcomes := fun _ => SvcOutcome.throw }

/-- A concrete inline payload returned by a successful cleanup call. -/
def inlineD0 : InlineData := { data := "CLEANEDBYTES", mimeType := "image/png" }

/-- A concrete successful service response carrying `inlineD0`. -/
def resp0 : RResponse :=
  { candidates := [{ content := some { parts := some [{ inlineData := some inlineD0 }] } }] }

/-- The cleanup loop preserves the number of assets. -/
theorem cleanLoop_length (env : CleanupEnv) (start : Nat) (l : List UploadedFile) :
    (cleanLoop env start l).length = l.length := by
  induction l generalizing start with
  | nil => rfl
  | cons f rest ih => simp [cleanLoop, ih]

/-- Position `i` of the cleanup loop output is the per-asset processing of
position `i` of the input, with the matching call outcome. -/
theorem cleanLoop_getElem? (env : CleanupEnv) (start i : Nat) (l : List UploadedFile) :
    (cleanLoop env start l)[i]? =
      (l[i]?).map (fun f => cleanOne f (env.outcomes (start + i))) := by
  induction l generalizing start i with
  | nil => simp [cleanLoop]
  | cons f rest ih =>
    cases i with
    | zero => simp [cleanLoop]
    | succ n =>
      simp only [cleanLoop, List.getElem?_cons_succ]
      rw [ih (start + 1) n]
      have hadd : start + 1 + n = start + (n + 1) := by omega
      rw [hadd]

/-- When a filter keeps nothing, the complementary filter keeps everything. -/
theorem filter_not_all (p : UploadedFile → Bool) (l : List UploadedFile)
    (h : l.filter p = []) : l.filter (fun a => !(p a)) = l := by
  induction l with
  | nil => rfl
  | cons a t ih =>
    rw [List.filter_cons] at h ⊢
    by_cases hp : p a = true
    · rw [if_pos hp] at h
      exact absurd h (by simp)
    · have hp2 : p a = false := by revert hp; cases p a <;> simp
      rw [hp2] at h ⊢
      simp only [Bool.not_false, if_true, if_false] at h ⊢
      rw [ih h]

/-- The rendered view of one loop iteration always carries that view's
label. -/
theorem renderViewResult_label (bp : BlueprintData) (view : ViewPrompt) (i : Nat)
    (outcome : SvcOutcome) : (renderViewResult bp view i outcome).label = view.label := by
  cases outcome with
  | throw => rfl
  | resp response =>
    rcases response with ⟨cands⟩
    cases cands with
    | nil => rfl
    | cons c cs =>
      cases hfi : findInlineResp ⟨c :: cs⟩ with
      | none => simp [renderViewResult, hfi]
      | some d => simp [renderViewResult, hfi]

/-- Each render-loop iteration, started with an accumulator of length equal
to its index, appends exactly one element: the iteration's rendered view. -/
theorem renderViewIter_push (bp : BlueprintData) (view : ViewPrompt) (i : Nat)
    (outcome : SvcOutcome) (acc : List GeneratedImage) (h : acc.length = i) :
    renderViewIter bp view i outcome acc = acc ++ [renderViewResult bp view i outcome] := by
  cases outcome with
  | throw => rfl
  | resp response =>
    rcases response with ⟨cands⟩
    cases cands with
    | nil => rfl
    | cons c cs =>
      rcases c with ⟨content⟩
      cases content with
      | none =>
        simp [renderViewIter, renderTryBody, renderViewResult, findInlineResp, h]
      | some ct =>
        rcases ct with ⟨parts⟩
        cases parts with
        | none =>
          simp [renderViewIter, renderTryBody, renderViewResult, findInlineResp, h]
        | some ps =>
          cases hfi : findInline ps with
          | none =>
            simp [renderViewIter, renderTryBody, renderViewResult, findInlineResp, hfi, h]
          | some d =>
            simp [renderViewIter, renderTryBody, renderViewResult, findInlineResp, hfi, h,
              Nat.succ_ne_self]

/-- Claim C1: for every blueprint whose selected image source is non-empty,
the render operation returns exactly three rendered views whose labels are
Floor Plan, Main Event Space and Side View in declaration order, whatever
the per-view service outcomes are. -/
theorem generateLayoutFromBlueprint_label_shape (env : RenderEnv) (bp : BlueprintData)
    (h : selectedVenueImages bp ≠ []) :
    ((generateLayoutFromBlueprint env bp).images).map (fun g => g.label) =
      ["Floor Plan", "Main Event Space", "Side View"] := by
  have hlen : ¬((selectedVenueImages bp).length = 0) := by
    simpa [List.length_eq_zero] using h
  cases hm : env.modelThrow with
  | true =>
    simp [generateLayoutFromBlueprint, generateLayoutInner, hm, completeFallbackResult]
  | false =>
    have hres : generateLayoutFromBlueprint env bp =
        { images := renderLoop bp env.outcomes } := by
      simp [generateLayoutFromBlueprint, generateLayoutInner, hm, hlen]
    rw [hres]
    have hloop : renderLoop bp env.outcomes =
        renderViewIter bp (sideViewView bp) 2 (env.outcomes 2)
          (renderViewIter bp (mainSpaceView bp) 1 (env.outcomes 1)
            (renderViewIter bp (floorPlanView bp) 0 (env.outcomes 0) [])) := rfl
    rw [hloop]
    rw [renderViewIter_push bp (floorPlanView bp) 0 (env.outcomes 0) [] rfl]
    rw [renderViewIter_push bp (mainSpaceView bp) 1 (env.outcomes 1) _ (by simp)]
    rw [renderViewIter_push bp (sideViewView bp) 2 (env.outcomes 2) _ (by simp)]
    simp [renderViewResult_label, floorPlanView, mainSpaceView, sideViewView]

/-- Claim C1 witness: a concrete blueprint with one supported original image
and every per-view call throwing still yields the three labels in order. -/
theorem generateLayoutFromBlueprint_label_shape_witness :
    selectedVenueImages bpWithImg ≠ [] ∧
    ((generateLayoutFromBlueprint rEnvAllThrow bpWithImg).images).map (fun g => g.label) =
      ["Floor Plan", "Main Event Space", "Side View"] :=
  ⟨by decide, generateLayoutFromBlueprint_label_shape rEnvAllThrow bpWithImg (by decide)⟩

/-- Claim C2 counterexample: with zero supported images in both asset sets
the render operation does not fail: its internal no-images throw is caught
by its own catch and a complete three-view result is returned to the
caller. -/
theorem generateLayout_no_images_counterexample :
    (selectedVenueImages bpNoImg).length = 0 ∧
    generateLayoutInner rEnvAllThrow bpNoImg =
      Except.error "No venue images found to transform" ∧
    (generateLayoutFromBlueprint rEnvAllThrow bpNoImg).images.length = 3 :=
  ⟨rfl, rfl, rfl⟩

/-- Claim C2 (amended): when both asset sets contain zero supported-image
entries, the render operation's internal no-images error is converted by
its own catch into the complete three-view all-fallback result; the caller
receives that result, not an error. -/
theorem generateLayout_no_images_full_fallback (env : RenderEnv) (bp : BlueprintData)
    (h : (selectedVenueImages bp).length = 0) :
    generateLayoutFromBlueprint env bp = completeFallbackResult bp := by
  cases hm : env.modelThrow <;>
    simp [generateLayoutFromBlueprint, generateLayoutInner, hm, h]

/-- Claim C2 witness: the amended claim at a concrete no-image blueprint. -/
theorem generateLayout_no_images_full_fallback_witness :
    (selectedVenueImages bpNoImg).length = 0 ∧
    generateLayoutFromBlueprint rEnvModelThrow bpNoImg = completeFallbackResult bpNoImg :=
  ⟨rfl, generateLayout_no_images_full_fallback rEnvModelThrow bpNoImg rfl⟩

/-- Claim C3 counterexample: with zero files, null location and empty
website, the blueprint operation does not fail fast: it succeeds and one
network call (the text/vision call) is made. -/
theorem getEventBlueprint_empty_input_counterexample :
    (getEventBlueprint envB0 [] "garden party" none "").2 = 1 ∧
    exceptIsOk (getEventBlueprint envB0 [] "garden party" none "").1 = true :=
  ⟨rfl, rfl⟩

/-- Claim C3 (amended): for zero files with null location and empty website,
the blueprint operation performs the text/vision network call whenever
model construction succeeds (exactly one call), and never raises a
no-images error; the fail-fast guard for this input lives in the UI caller,
and the no-images error belongs to the render stage. -/
theorem getEventBlueprint_empty_input_still_calls (env : BlueprintEnv) (prompt : String)
    (h : env.analysisModelThrow = false) :
    (getEventBlueprint env [] prompt none "").2 = 1 ∧
    (getEventBlueprint env [] prompt none "").1 ≠
      Except.error "No venue images found to transform" := by
  cases hb : env.blueprintOutcome with
  | none =>
    constructor
    · simp [getEventBlueprint, cleanUpImages, h, hb]
    · simp [getEventBlueprint, cleanUpImages, h, hb]
  | some t =>
    constructor
    · simp [getEventBlueprint, cleanUpImages, h, hb]
    · simp [getEventBlueprint, cleanUpImages, h, hb]

/-- Claim C3 witness: the amended claim at a concrete environment. -/
theorem getEventBlueprint_empty_input_still_calls_witness :
    envB0.analysisModelThrow = false ∧
    ((getEventBlueprint envB0 [] "garden party" none "").2 = 1 ∧
      (getEventBlueprint envB0 [] "garden party" none "").1 ≠
        Except.error "No venue images found to transform") :=
  ⟨rfl, getEventBlueprint_empty_input_still_calls envB0 "garden party" rfl⟩

/-- Claim C4: whenever the outer render logic throws (any error of the try
body), the exception is caught and converted into the complete three-view
all-fallback result, so the caller never receives a partial render set and
never sees the exception. -/
theorem generateLayout_outer_failure_caught (env : RenderEnv) (bp : BlueprintData) (e : String)
    (h : generateLayoutInner env bp = Except.error e) :
    generateLayoutFromBlueprint env bp = completeFallbackResult bp := by
  simp [generateLayoutFromBlueprint, h]

/-- Claim C4 witness: a model-construction throw at a concrete blueprint is
converted into the complete all-fallback result. -/
theorem generateLayout_outer_failure_caught_witness :
    generateLayoutInner rEnvModelThrow bpWithImg = Except.error "model construction threw" ∧
    generateLayoutFromBlueprint rEnvModelThrow bpWithImg = completeFallbackResult bpWithImg :=
  ⟨rfl,
    generateLayout_outer_failure_caught rEnvModelThrow bpWithImg "model construction threw" rfl⟩

/-- Claim C5: any exception in the blueprint stage (analysis-model
construction or the text/vision call) surfaces as the single fixed
user-facing error message; the original exception is never surfaced. -/
theorem getEventBlueprint_failure_fixed_message (env : BlueprintEnv)
    (files : List UploadedFile) (prompt : String) (location : Option LocationType)
    (venueWebsite : String)
    (h : env.analysisModelThrow = true ∨ env.blueprintOutcome = none) :
    (getEventBlueprint env files prompt location venueWebsite).1 =
      Except.error "Failed to analyze venue. Please check your images and try again." := by
  cases ha : env.analysisModelThrow with
  | true => simp [getEventBlueprint, ha]
  | false =>
    have hb : env.blueprintOutcome = none := by
      rcases h with h1 | h1
      · rw [ha] at h1
        exact absurd h1 (by simp)
      · exact h1
    simp [getEventBlueprint, ha, hb]

/-- Claim C5 witness: a throwing analysis stage at concrete inputs yields
exactly the fixed retry message. -/
theorem getEventBlueprint_failure_fixed_message_witness :
    (getEventBlueprint envBthrow [imgFile0] "gala" none "").1 =
      Except.error "Failed to analyze venue. Please check your images and try again." :=
  getEventBlueprint_failure_fixed_message envBthrow [imgFile0] "gala" none "" (Or.inl rfl)

/-- Claim C6: a cleanable asset whose per-asset service call throws is kept
byte-identical at its same relative position in the cleanup output, and
processing continues (the cleanup operation is total, so the error never
propagates). -/
theorem cleanUpImages_per_asset_throw_keeps_original (env : CleanupEnv)
    (files : List UploadedFile) (i : Nat)
    (hm : env.modelThrow = false)
    (hi : i < (files.filter isSupportedImage).length)
    (ho : env.outcomes i = SvcOutcome.throw) :
    ((cleanUpImages env files).1)[i]? = (files.filter isSupportedImage)[i]? := by
  have hne : ¬((files.filter isSupportedImage).length = 0) := by omega
  have hout : (cleanUpImages env files).1 =
      cleanLoop env 0 (files.filter isSupportedImage) ++
        files.filter (fun file => !(isSupportedImage file)) := by
    simp [cleanUpImages, hne, hm]
  rw [hout]
  rw [List.getElem?_append_left (by rw [cleanLoop_length]; exact hi)]
  rw [cleanLoop_getElem?]
  rw [List.getElem?_eq_getElem hi]
  simp [Nat.zero_add, ho, cleanOne]

/-- Claim C6 witness: one supported image, its call throwing, kept
unchanged at position zero. -/
theorem cleanUpImages_per_asset_throw_keeps_original_witness :
    0 < ([imgFile0].filter isSupportedImage).length ∧
    ((cleanUpImages cEnvThrow [imgFile0]).1)[0]? =
      ([imgFile0].filter isSupportedImage)[0]? :=
  ⟨by decide,
    cleanUpImages_per_asset_throw_keeps_original cEnvThrow [imgFile0] 0 rfl (by decide) rfl⟩

/-- Claim C7: the cleanup output is the cleaned-or-substituted cleanable
assets in their original relative order, followed by the pass-through
assets in their original relative order; with no cleanable asset the input
is returned unchanged. -/
theorem cleanUpImages_output_ordering (env : CleanupEnv) (files : List UploadedFile)
    (hm : env.modelThrow = false) :
    (∀ i : Nat,
        ((cleanUpImages env files).1)[i]? =
          if i < (files.filter isSupportedImage).length then
            ((files.filter isSupportedImage)[i]?).map (fun f => cleanOne f (env.outcomes i))
          else
            (files.filter (fun file => !(isSupportedImage file)))[i -
              (files.filter isSupportedImage).length]?) ∧
    (files.filter isSupportedImage = [] → (cleanUpImages env files).1 = files) := by
  by_cases h0 : (files.filter isSupportedImage).length = 0
  · have hnil : files.filter isSupportedImage = [] := List.length_eq_zero.mp h0
    have hall : files.filter (fun file => !(isSupportedImage file)) = files :=
      filter_not_all _ _ hnil
    constructor
    · intro i
      rw [hnil, hall]
      simp [cleanUpImages, h0]
    · intro _
      simp [cleanUpImages, h0]
  · constructor
    · intro i
      have hout : (cleanUpImages env files).1 =
          cleanLoop env 0 (files.filter isSupportedImage) ++
            files.filter (fun file => !(isSupportedImage file)) := by
        simp [cleanUpImages, h0, hm]
      rw [hout]
      by_cases hi : i < (files.filter isSupportedImage).length
      · rw [if_pos hi, List.getElem?_append_left (by rw [cleanLoop_length]; exact hi),
          cleanLoop_getElem?]
        simp
      · rw [if_neg hi,
          List.getElem?_append_right (by rw [cleanLoop_length]; omega),
          cleanLoop_length]
    · intro hnil
      exact absurd (by rw [hnil]; rfl) h0

/-- Claim C7 witness: a video-only input passes through unchanged. -/
theorem cleanUpImages_output_ordering_witness :
    cEnvThrow.modelThrow = false ∧
    (cleanUpImages cEnvThrow [vidFile0]).1 = [vidFile0] :=
  ⟨rfl, (cleanUpImages_output_ordering cEnvThrow [vidFile0] rfl).2 (by decide)⟩

/-- Claim C8: on a successful per-asset call, an inline payload in the
response replaces the asset's payload (with the returned MIME type, or the
original when the response provides none) and marks the name; a successful
response without an inline payload keeps the original asset for that
slot. -/
theorem cleanUpImages_success_response_handling (file : UploadedFile) (response : RResponse) :
    (∀ d : InlineData, findInlineResp response = some d →
        cleanOne file (SvcOutcome.resp response) =
          { file with
            base64 :=
              "data:" ++ (if d.mimeType = "" then file.mimeType else d.mimeType) ++
                ";base64," ++ d.data,
            name := "cleaned_" ++ file.name }) ∧
    (findInlineResp response = none → cleanOne file (SvcOutcome.resp response) = file) := by
  rcases response with ⟨cands⟩
  cases cands with
  | nil => exact ⟨fun d hd => by simp [findInlineResp] at hd, fun _ => rfl⟩
  | cons c cs =>
    rcases c with ⟨content⟩
    cases content with
    | none => exact ⟨fun d hd => by simp [findInlineResp] at hd, fun _ => rfl⟩
    | some ct =>
      rcases ct with ⟨parts⟩
      cases parts with
      | none => exact ⟨fun d hd => by simp [findInlineResp] at hd, fun _ => rfl⟩
      | some ps =>
        constructor
        · intro d hd
          have hfi : findInline ps = some d := by simpa [findInlineResp] using hd
          simp [cleanOne, hfi]
        · intro hn
          have hfi : findInline ps = none := by simpa [findInlineResp] using hn
          simp [cleanOne, hfi]

/-- Claim C8 witness: a concrete successful response with an inline payload
replaces the payload and marks the name. -/
theorem cleanUpImages_success_response_handling_witness :
    findInlineResp resp0 = some inlineD0 ∧
    cleanOne imgFile0 (SvcOutcome.resp resp0) =
      { imgFile0 with
        base64 :=
          "data:" ++ (if inlineD0.mimeType = "" then imgFile0.mimeType else inlineD0.mimeType) ++
            ";base64," ++ inlineD0.data,
        name := "cleaned_" ++ imgFile0.name } :=
  ⟨rfl, (cleanUpImages_success_response_handling imgFile0 resp0).1 inlineD0 rfl⟩

/-- Claim C9: the fallback renderer is a pure function of the label and
index alone: for the same label (and index) any two blueprint values
produce byte-identical output; determinism is inherent in the embedding,
since the source uses only fixed string literals and btoa. -/
theorem generateFallbackSVG_blueprint_independent (label : String) (bp1 bp2 : BlueprintData)
    (index : Nat) :
    generateFallbackSVG label bp1 index = generateFallbackSVG label bp2 index := by
  simp only [generateFallbackSVG]
  split_ifs <;> rfl

/-- Claim C10: per-asset cleanup never touches fields other than the payload
and the name: the MIME type field and the kind field keep their original
values for every possible service outcome, including responses reporting a
different MIME type. -/
theorem cleanOne_preserves_mime_and_kind (file : UploadedFile) (outcome : SvcOutcome) :
    (cleanOne file outcome).mimeType = file.mimeType ∧
    (cleanOne file outcome).type = file.type := by
  cases outcome with
  | throw => exact ⟨rfl, rfl⟩
  | resp response =>
    rcases response with ⟨cands⟩
    cases cands with
    | nil => exact ⟨rfl, rfl⟩
    | cons c cs =>
      rcases c with ⟨content⟩
      cases content with
      | none => exact ⟨rfl, rfl⟩
      | some ct =>
        rcases ct with ⟨parts⟩
        cases parts with
        | none => exact ⟨rfl, rfl⟩
        | some ps =>
          cases hfi : findInline ps with
          | none => simp [cleanOne, hfi]
          | some d => simp [cleanOne, hfi]
